import Mathlib

/-!
Verification of the libosmium XML output format core
(`include/osmium/io/detail/xml_output_format.hpp` and
`include/osmium/thread/util.hpp`).

The per-entity rendering code is translated directly from the source.
External collaborators that the source calls but whose code is not part of
the repository slice (printf-style integer formatting, fixed-precision
coordinate formatting, `append_xml_encoded_string`, `Timestamp::to_iso`,
`item_type_to_name`, the thread pool / future queue machinery and
`std::future` itself) are modelled from the specification; each such
definition is marked in its doc comment.
-/

namespace osmium

/-- Modelled from the spec: decimal digit character, as produced by the
printf-style integer formatting collaborators (`output_formatted` /
`append_printf_formatted_string`, not in src/). -/
def digit_char (d : Nat) : Char := Char.ofNat (48 + d)

/-- Modelled from the spec: fuel-indexed most-significant-first decimal digit
expansion of a natural number (the fuel is structural so that concrete values
reduce in the kernel; `nat_digits_core (n+1) n` always has enough fuel). -/
def nat_digits_core : Nat → Nat → List Char
  | 0, _ => []
  | fuel + 1, n =>
    if n < 10 then [digit_char n]
    else nat_digits_core fuel (n / 10) ++ [digit_char (n % 10)]

/-- Modelled from the spec: printf "%d"-style decimal rendering of a
non-negative value. -/
def format_nat (n : Nat) : String := String.mk (nat_digits_core (n + 1) n)

/-- Modelled from the spec: printf PRId32/PRId64-style decimal rendering of a
signed value. -/
def format_int (i : Int) : String :=
  if i < 0 then "-" ++ format_nat i.natAbs else format_nat i.natAbs

/-- Modelled from the spec: lower-case hexadecimal digit character. -/
def hex_digit_char (d : Nat) : Char :=
  if d < 10 then Char.ofNat (48 + d) else Char.ofNat (87 + d)

/-- Modelled from the spec: `append_xml_encoded_string` (not in src/) escapes
the markup's reserved characters `&`, `<`, `>`, `"` and the control characters
below 0x20 other than tab, newline and carriage return (the latter via a
numeric character reference); every other character passes through. -/
def xml_escape_char (c : Char) : List Char :=
  if c = '&' then "&amp;".data
  else if c = '<' then "&lt;".data
  else if c = '>' then "&gt;".data
  else if c = '"' then "&quot;".data
  else if c.toNat < 32 ∧ c ≠ '\t' ∧ c ≠ '\n' ∧ c ≠ '\r' then
    "&#x".data ++ [hex_digit_char (c.toNat / 16), hex_digit_char (c.toNat % 16)] ++ [';']
  else [c]

/-- Modelled from the spec: `append_xml_encoded_string` over a whole string. -/
def xml_escape (s : String) : String :=
  String.mk ((s.data.map xml_escape_char).flatten)

/-- Modelled from the spec: two-digit zero padding used by the timestamp
rendering collaborator. -/
def pad2 (n : Nat) : String := if n < 10 then "0" ++ format_nat n else format_nat n

/-- Modelled from the spec: `osmium::Timestamp::to_iso` (not in src/) renders a
timestamp as ISO-8601-style text; the claims depend only on its character
repertoire (decimal digits and the punctuation `T`, `:`, `Z`), so the
embedding renders the day count and the time of day in that repertoire. -/
def timestamp_to_iso (t : Nat) : String :=
  format_nat (t / 86400) ++ "T" ++ pad2 (t % 86400 / 3600) ++ ":" ++
    pad2 (t % 3600 / 60) ++ ":" ++ pad2 (t % 60) ++ "Z"

/-- Modelled from the spec: left-pad to seven digits, for the fractional part
of fixed-precision coordinates. -/
def pad7 (n : Nat) : String :=
  String.mk (List.replicate (7 - (nat_digits_core (n + 1) n).length) '0') ++ format_nat n

/-- Modelled from the spec: seven-decimal fixed-precision coordinate rendering
(`osmium::util::double2string` / printf "%.7f", not in src/); coordinates are
embedded as integers scaled by 10^7. -/
def coord7 (x : Int) : String :=
  (if x < 0 then "-" else "") ++ format_nat (x.natAbs / 10000000) ++ "." ++
    pad7 (x.natAbs % 10000000)

/-- A geographic point; coordinates as 10^-7-degree scaled integers
(collaborator type `osmium::Location`, not in src/). -/
structure Location where
  lat : Int
  lon : Int
deriving DecidableEq

/-- Collaborator type `osmium::item_type` (not in src/). -/
inductive item_type
  | node
  | way
  | relation
  | changeset
deriving DecidableEq

/-- Modelled from the spec: `item_type_to_name` (not in src/) yields the
element name for a member type. -/
def item_type_to_name : item_type → String
  | .node => "node"
  | .way => "way"
  | .relation => "relation"
  | .changeset => "changeset"

/-- Common `osmium::OSMObject` data (collaborator type, not in src/): identity,
optional version (0 = absent), optional timestamp (0 = unset), author
(uid 0 = anonymous sentinel), optional changeset reference (0 = unset), the
visible flag and the tag list. -/
structure OSMObjectData where
  id : Int
  version : Nat
  timestamp : Nat
  uid : Int
  user : String
  changeset : Nat
  visible : Bool
  tags : List (String × String)
deriving DecidableEq

/-- Modelled from the spec: `user_is_anonymous` holds when the uid is
absent/zero. -/
def user_is_anonymous (o : OSMObjectData) : Bool := o.uid == 0

/-- Collaborator type `osmium::Node` (not in src/). -/
structure Node where
  obj : OSMObjectData
  location : Option Location
deriving DecidableEq

/-- Collaborator type `osmium::Way` (not in src/): ordered node references. -/
structure Way where
  obj : OSMObjectData
  nodes : List Int
deriving DecidableEq

/-- Collaborator type `osmium::RelationMember` (not in src/). -/
structure RelationMember where
  type : item_type
  ref : Int
  role : String
deriving DecidableEq

/-- Collaborator type `osmium::Relation` (not in src/): ordered members. -/
structure Relation where
  obj : OSMObjectData
  members : List RelationMember
deriving DecidableEq

/-- Collaborator type: one discussion comment of a changeset (not in src/). -/
structure ChangesetComment where
  uid : Int
  user : String
  date : Nat
  text : String
deriving DecidableEq

/-- Collaborator type `osmium::Box` (not in src/). -/
structure Box where
  bottom_left : Location
  top_right : Location
deriving DecidableEq

/-- Collaborator type `osmium::Changeset` (not in src/): timestamps are 0 when
unset, uid 0 is the anonymous sentinel. -/
structure Changeset where
  id : Int
  created_at : Nat
  closed_at : Nat
  uid : Int
  user : String
  bounds : Option Box
  num_changes : Int
  num_comments : Nat
  tags : List (String × String)
  comments : List ChangesetComment
deriving DecidableEq

/-- Modelled from the spec: `user_is_anonymous` for changesets. -/
def Changeset.user_is_anonymous (c : Changeset) : Bool := c.uid == 0

/-- One entity stored in an input buffer. -/
inductive Item
  | node (n : Node)
  | way (w : Way)
  | relation (r : Relation)
  | changeset (c : Changeset)
deriving DecidableEq

/-- Whether an item is an OSM object (node, way or relation) as opposed to a
changeset. -/
def Item.is_object : Item → Bool
  | .changeset _ => false
  | _ => true

/-- `struct xml_output_options` from the source. -/
structure xml_output_options where
  add_metadata : Bool
  add_visible_flag : Bool
  use_change_ops : Bool
deriving DecidableEq

/-- `enum class operation` from `XMLOutputBlock`. -/
inductive operation
  | op_none
  | op_create
  | op_modify
  | op_delete
deriving DecidableEq

/-- The mutable state of one `XMLOutputBlock`: the output string under
construction and `m_last_op`. -/
structure BlockState where
  out : String
  last_op : operation
deriving DecidableEq

/-- `XMLOutputBlock::write_spaces`. -/
def spaces (num : Nat) : String := String.mk (List.replicate num ' ')

/-- `XMLOutputBlock::prefix_spaces`. -/
def prefix_spaces (opts : xml_output_options) : Nat :=
  if opts.use_change_ops then 4 else 2

/-- `XMLOutputBlock::write_meta`. -/
def write_meta (opts : xml_output_options) (o : OSMObjectData) : String :=
  " id=\"" ++ format_int o.id ++ "\"" ++
    (if opts.add_metadata then
      (if o.version ≠ 0 then " version=\"" ++ format_nat o.version ++ "\"" else "") ++
      (if o.timestamp ≠ 0 then " timestamp=\"" ++ timestamp_to_iso o.timestamp ++ "\"" else "") ++
      (if !user_is_anonymous o then
        " uid=\"" ++ format_int o.uid ++ "\" user=\"" ++ xml_escape o.user ++ "\""
      else "") ++
      (if o.changeset ≠ 0 then " changeset=\"" ++ format_nat o.changeset ++ "\"" else "") ++
      (if opts.add_visible_flag then
        (if o.visible then " visible=\"true\"" else " visible=\"false\"")
      else "")
    else "")

/-- `XMLOutputBlock::write_tags`. -/
def write_tags (tags : List (String × String)) (num : Nat) : String :=
  String.join (tags.map fun tag =>
    spaces num ++ "  <tag k=\"" ++ xml_escape tag.1 ++ "\" v=\"" ++ xml_escape tag.2 ++ "\"/>\n")

/-- One comment of `XMLOutputBlock::write_discussion`. -/
def comment_string (comment : ChangesetComment) : String :=
  "   <comment uid=\"" ++ format_int comment.uid ++ "\" user=\"" ++ xml_escape comment.user ++
    "\" date=\"" ++ timestamp_to_iso comment.date ++ "\">\n" ++
    "    <text>" ++ xml_escape comment.text ++ "</text>\n   </comment>\n"

/-- `XMLOutputBlock::write_discussion`. -/
def write_discussion (comments : List ChangesetComment) : String :=
  String.join (comments.map comment_string) ++ "  </discussion>\n"

/-- The text opening a change-operation wrapper in
`XMLOutputBlock::open_close_op_tag`. -/
def open_op_string : operation → String
  | .op_none => ""
  | .op_create => "  <create>\n"
  | .op_modify => "  <modify>\n"
  | .op_delete => "  <delete>\n"

/-- The text closing a change-operation wrapper in
`XMLOutputBlock::open_close_op_tag`. -/
def close_op_string : operation → String
  | .op_none => ""
  | .op_create => "  </create>\n"
  | .op_modify => "  </modify>\n"
  | .op_delete => "  </delete>\n"

/-- `XMLOutputBlock::open_close_op_tag`: if the requested operation equals
`m_last_op` nothing happens; otherwise the previous wrapper (if any) is closed,
the new one (if any) is opened, and `m_last_op` is updated. -/
def open_close_op_tag (s : BlockState) (op : operation) : BlockState :=
  if op = s.last_op then s
  else { out := s.out ++ close_op_string s.last_op ++ open_op_string op, last_op := op }

/-- The inferred change operation, the conditional expression written inline in
`XMLOutputBlock::node`, `::way` and `::relation`:
`visible ? (version == 1 ? op_create : op_modify) : op_delete`. -/
def inferOp (o : OSMObjectData) : operation :=
  if o.visible then (if o.version = 1 then .op_create else .op_modify) else .op_delete

/-- The location attributes written by `XMLOutputBlock::node` when the node
has a location. -/
def location_attrs : Option Location → String
  | some loc => " lat=\"" ++ coord7 loc.lat ++ "\" lon=\"" ++ coord7 loc.lon ++ "\""
  | none => ""

/-- The markup emitted for one node by `XMLOutputBlock::node` (everything after
the `open_close_op_tag` call). -/
def node_element (opts : xml_output_options) (node : Node) : String :=
  spaces (prefix_spaces opts) ++ "<node" ++ write_meta opts node.obj ++
    location_attrs node.location ++
    (if node.obj.tags = [] then "/>\n"
     else ">\n" ++ write_tags node.obj.tags (prefix_spaces opts) ++
       spaces (prefix_spaces opts) ++ "</node>\n")

/-- One `<nd>` child of `XMLOutputBlock::way`. -/
def nd_ref_string (opts : xml_output_options) (ref : Int) : String :=
  spaces (prefix_spaces opts) ++ "  <nd ref=\"" ++ format_int ref ++ "\"/>\n"

/-- The markup emitted for one way by `XMLOutputBlock::way` (everything after
the `open_close_op_tag` call). -/
def way_element (opts : xml_output_options) (way : Way) : String :=
  spaces (prefix_spaces opts) ++ "<way" ++ write_meta opts way.obj ++
    (if way.obj.tags = [] ∧ way.nodes = [] then "/>\n"
     else ">\n" ++ String.join (way.nodes.map (nd_ref_string opts)) ++
       write_tags way.obj.tags (prefix_spaces opts) ++
       spaces (prefix_spaces opts) ++ "</way>\n")

/-- One `<member>` child of `XMLOutputBlock::relation`. -/
def member_string (opts : xml_output_options) (member : RelationMember) : String :=
  spaces (prefix_spaces opts) ++ "  <member type=\"" ++ item_type_to_name member.type ++
    "\" ref=\"" ++ format_int member.ref ++ "\" role=\"" ++ xml_escape member.role ++ "\"/>\n"

/-- The markup emitted for one relation by `XMLOutputBlock::relation`
(everything after the `open_close_op_tag` call). -/
def relation_element (opts : xml_output_options) (relation : Relation) : String :=
  spaces (prefix_spaces opts) ++ "<relation" ++ write_meta opts relation.obj ++
    (if relation.obj.tags = [] ∧ relation.members = [] then "/>\n"
     else ">\n" ++ String.join (relation.members.map (member_string opts)) ++
       write_tags relation.obj.tags (prefix_spaces opts) ++
       spaces (prefix_spaces opts) ++ "</relation>\n")

/-- The bounding-box attributes written by `XMLOutputBlock::changeset`. -/
def bounds_attrs : Option Box → String
  | some b =>
    " min_lat=\"" ++ coord7 b.bottom_left.lat ++ "\"" ++
      " min_lon=\"" ++ coord7 b.bottom_left.lon ++ "\"" ++
      " max_lat=\"" ++ coord7 b.top_right.lat ++ "\"" ++
      " max_lon=\"" ++ coord7 b.top_right.lon ++ "\""
  | none => ""

/-- The attribute section written by `XMLOutputBlock::changeset` before it
decides between self-closing and open/close. -/
def changeset_attrs (c : Changeset) : String :=
  " id=\"" ++ format_int c.id ++ "\"" ++
    (if c.created_at ≠ 0 then " created_at=\"" ++ timestamp_to_iso c.created_at ++ "\"" else "") ++
    (if c.closed_at ≠ 0 then " closed_at=\"" ++ timestamp_to_iso c.closed_at ++ "\" open=\"false\""
     else " open=\"true\"") ++
    (if !c.user_is_anonymous then
      " user=\"" ++ xml_escape c.user ++ "\" uid=\"" ++ format_int c.uid ++ "\""
    else "") ++
    bounds_attrs c.bounds ++
    " num_changes=\"" ++ format_int c.num_changes ++ "\"" ++
    " comments_count=\"" ++ format_nat c.num_comments ++ "\""

/-- The markup emitted for one changeset by `XMLOutputBlock::changeset`. -/
def changeset_element (c : Changeset) : String :=
  " <changeset" ++ changeset_attrs c ++
    (if c.tags = [] ∧ c.num_comments = 0 then "/>\n"
     else ">\n" ++ write_tags c.tags 0 ++
       (if 0 < c.num_comments then "  <discussion>\n" ++ write_discussion c.comments else "") ++
       " </changeset>\n")

/-- `XMLOutputBlock::node` as a state transformer: the change-operation wrapper
protocol followed by the node markup. -/
def XMLOutputBlock.node (opts : xml_output_options) (s : BlockState) (n : Node) : BlockState :=
  let s1 := if opts.use_change_ops then open_close_op_tag s (inferOp n.obj) else s
  { out := s1.out ++ node_element opts n, last_op := s1.last_op }

/-- `XMLOutputBlock::way` as a state transformer. -/
def XMLOutputBlock.way (opts : xml_output_options) (s : BlockState) (w : Way) : BlockState :=
  let s1 := if opts.use_change_ops then open_close_op_tag s (inferOp w.obj) else s
  { out := s1.out ++ way_element opts w, last_op := s1.last_op }

/-- `XMLOutputBlock::relation` as a state transformer. -/
def XMLOutputBlock.relation (opts : xml_output_options) (s : BlockState) (r : Relation) : BlockState :=
  let s1 := if opts.use_change_ops then open_close_op_tag s (inferOp r.obj) else s
  { out := s1.out ++ relation_element opts r, last_op := s1.last_op }

/-- `XMLOutputBlock::changeset` as a state transformer: the method has access
to `m_options` (the first argument) but never reads it, never calls
`open_close_op_tag`, and only appends the changeset markup. -/
def XMLOutputBlock.changeset (_opts : xml_output_options) (s : BlockState) (c : Changeset) :
    BlockState :=
  { out := s.out ++ changeset_element c, last_op := s.last_op }

/-- The dispatch performed by `osmium::apply` inside
`XMLOutputBlock::operator()`. -/
def apply_item (opts : xml_output_options) (s : BlockState) : Item → BlockState
  | .node n => XMLOutputBlock.node opts s n
  | .way w => XMLOutputBlock.way opts s w
  | .relation r => XMLOutputBlock.relation opts s r
  | .changeset c => XMLOutputBlock.changeset opts s c

/-- `XMLOutputBlock::operator()`: apply every item of the buffer in order,
close a still-open change-operation wrapper when `use_change_ops` is set, and
return the accumulated string. -/
def block_string (opts : xml_output_options) (items : List Item) : String :=
  let s := items.foldl (apply_item opts) { out := "", last_op := .op_none }
  let s2 := if opts.use_change_ops then open_close_op_tag s .op_none else s
  s2.out

/-- The source-of-truth configuration object (`osmium::io::File`, not in src/):
named boolean-ish lookups plus the multiple-object-versions property. -/
structure File where
  is_true : String → Bool
  is_not_false : String → Bool
  has_multiple_object_versions : Bool

/-- The configuration computed by the `XMLOutputFormat` constructor. -/
def XMLOutputFormat.init_options (file : File) : xml_output_options :=
  { add_metadata := file.is_not_false "add_metadata"
    use_change_ops := file.is_true "xml_change_format"
    add_visible_flag :=
      (file.has_multiple_object_versions || file.is_true "force_visible_flag") &&
        !file.is_true "xml_change_format" }

/-- The header object (`osmium::io::Header`, not in src/): `get` lookups for
the keys the source reads (absent keys yield the empty string) and the
bounding boxes. -/
structure Header where
  generator : String
  xml_josm_upload : String
  boxes : List Box
deriving DecidableEq

/-- One `<bounds>` line of `XMLOutputFormat::write_header`. -/
def box_string (box : Box) : String :=
  "  <bounds" ++ " minlon=\"" ++ coord7 box.bottom_left.lon ++ "\"" ++
    " minlat=\"" ++ coord7 box.bottom_left.lat ++ "\"" ++
    " maxlon=\"" ++ coord7 box.top_right.lon ++ "\"" ++
    " maxlat=\"" ++ coord7 box.top_right.lat ++ "\"/>\n"

/-- `XMLOutputFormat::write_header`. -/
def write_header (opts : xml_output_options) (header : Header) : String :=
  "<?xml version='1.0' encoding='UTF-8'?>\n" ++
    (if opts.use_change_ops then "<osmChange version=\"0.6\" generator=\""
     else
       "<osm version=\"0.6\"" ++
         (if header.xml_josm_upload = "true" ∨ header.xml_josm_upload = "false" then
           " upload=\"" ++ header.xml_josm_upload ++ "\""
         else "") ++ " generator=\"") ++
    xml_escape header.generator ++ "\">\n" ++
    String.join (header.boxes.map box_string)

/-- `XMLOutputFormat::write_end`. -/
def write_end (opts : xml_output_options) : String :=
  if opts.use_change_ops then "</osmChange>\n" else "</osm>\n"

/-- Modelled from the spec: the observable state of a `std::future` (not in
src/) at the moment `check_for_exception` inspects it: whether it is valid,
whether a zero-timeout wait reports it ready, and the stored outcome (a value
or a stored exception). -/
structure StdFuture where
  valid : Bool
  ready : Bool
  stored_exception : Option String
deriving DecidableEq

/-- Modelled from the spec: `std::future::get` (not in src/) re-throws the
stored exception when there is one and otherwise yields the stored value. -/
def StdFuture.get (future : StdFuture) : Except String Unit :=
  match future.stored_exception with
  | some e => Except.error e
  | none => Except.ok ()

/-- `osmium::thread::check_for_exception`: if the future is valid and already
ready, `get()` it, which surfaces the stored exception (or the stored value);
otherwise return normally. -/
def check_for_exception (future : StdFuture) : Except String Unit :=
  if future.valid && future.ready then future.get else Except.ok ()

/-- Modelled from the spec: the state of the ordered output queue session (the
queue type and its drain loop are not in src/): per-block fulfillment flags,
the handles still queued in push order, and the strings already delivered to
the sink. -/
structure QueueState where
  ready : List Bool
  queue : List Nat
  delivered : List String
deriving DecidableEq

/-- Modelled from the spec: one scheduler event — a worker finishes encoding
block `i`, or the drain step pops the head handle. -/
inductive QueueEvent
  | work (i : Nat)
  | pop
deriving DecidableEq

/-- Modelled from the spec: one step of the pipeline. A worker may fulfill any
not-yet-fulfilled handle (completion order is unconstrained); the drain step
pops only the head handle and only once that specific handle is fulfilled,
delivering that block's result string to the sink. `none` means the event is
not enabled in this state. -/
def queue_step (results : List String) (s : QueueState) : QueueEvent → Option QueueState
  | .work i =>
    if h : i < s.ready.length then
      if s.ready.get ⟨i, h⟩ then none
      else some { s with ready := s.ready.set i true }
    else none
  | .pop =>
    match s.queue with
    | [] => none
    | i :: rest =>
      if h : i < s.ready.length then
        if s.ready.get ⟨i, h⟩ then
          some { s with queue := rest, delivered := s.delivered ++ [results.getD i ""] }
        else none
      else none

/-- Modelled from the spec: a whole interleaving of worker completions and
drain pops. -/
def queue_run (results : List String) (s : QueueState) : List QueueEvent → Option QueueState
  | [] => some s
  | e :: es =>
    match queue_step results s e with
    | none => none
    | some s2 => queue_run results s2 es

/-- Modelled from the spec: the queue right after `write_buffer` has submitted
`n` blocks — nothing fulfilled, handles queued in submission order (this is
the push order of `XMLOutputFormat::write_buffer`), nothing delivered. -/
def init_queue_state (n : Nat) : QueueState :=
  { ready := List.replicate n false, queue := List.range n, delivered := [] }

/-- The full sequence of strings a session hands to the sink: the header, the
drained block strings, the footer. -/
def session_output (opts : xml_output_options) (header : Header) (delivered : List String) :
    List String :=
  write_header opts header :: (delivered ++ [write_end opts])

/-- The inferred operation as claim C2 states it (claim-side definition, for
comparison with `inferOp`): delete if not visible; otherwise create if the
version equals 1 or the version is absent; otherwise modify. -/
def claimed_inferred_op (o : OSMObjectData) : operation :=
  if !o.visible then .op_delete
  else if o.version = 1 ∨ o.version = 0 then .op_create
  else .op_modify

/-- A visible object with absent version, the input separating `inferOp` from
`claimed_inferred_op`. -/
def no_version_object : OSMObjectData :=
  { id := 7, version := 0, timestamp := 0, uid := 0, user := "", changeset := 0,
    visible := true, tags := [] }

/-- The inferred operation of an item (`op_none` for changesets, which have no
inferred operation). -/
def entity_op : Item → operation
  | .node n => inferOp n.obj
  | .way w => inferOp w.obj
  | .relation r => inferOp r.obj
  | .changeset _ => .op_none

/-- The markup an item contributes, excluding wrapper tags. -/
def item_element (opts : xml_output_options) : Item → String
  | .node n => node_element opts n
  | .way w => way_element opts w
  | .relation r => relation_element opts r
  | .changeset c => changeset_element c

/-- The string a change-format block appends from a given wrapper state on: the
wrapper-boundary text of each item followed by its markup, with the final
wrapper closed at the end. -/
def out_from (opts : xml_output_options) (last : operation) : List Item → String
  | [] => close_op_string last
  | it :: rest =>
    (if entity_op it = last then ""
     else close_op_string last ++ open_op_string (entity_op it)) ++
      item_element opts it ++ out_from opts (entity_op it) rest

/-- Claim-side definition: the maximal contiguous runs of equal inferred
operations in a buffer. -/
def runs : List Item → List (operation × List Item)
  | [] => []
  | it :: rest =>
    match runs rest with
    | [] => [(entity_op it, [it])]
    | (op, g) :: rs =>
      if entity_op it = op then (op, it :: g) :: rs
      else (entity_op it, [it]) :: (op, g) :: rs

/-- Claim-side definition: one wrapper open/close pair immediately enclosing
the markup of its run. -/
def run_string (opts : xml_output_options) (p : operation × List Item) : String :=
  open_op_string p.1 ++ String.join (p.2.map (item_element opts)) ++ close_op_string p.1

/-- Claim-side definition: the whole block output as one wrapper pair per run. -/
def runs_out (opts : xml_output_options) (rs : List (operation × List Item)) : String :=
  String.join (rs.map (run_string opts))

/-- An attribute section is safe when it contains neither `<` nor `>`: a
string of shape `"<name" ++ A ++ "/>\n"` with `attr_safe A` is a single
self-closed element with no separate closing tag. -/
def attr_safe (s : String) : Prop := ∀ c ∈ s.data, c ≠ '<' ∧ c ≠ '>'

/-- Whether `pat` occurs as a contiguous subsequence of the second list. -/
def has_infix (pat : List Char) : List Char → Bool
  | [] => List.isPrefixOf pat []
  | c :: rest => List.isPrefixOf pat (c :: rest) || has_infix pat rest

/-- Whether the text ` upload="` — the way `write_header` begins the upload
attribute — occurs in a string. -/
def contains_upload_attr (s : String) : Bool := has_infix " upload=\"".data s.data

instance (s : String) : Decidable (attr_safe s) :=
  inferInstanceAs (Decidable (∀ c ∈ s.data, c ≠ '<' ∧ c ≠ '>'))

/-! ### Helper lemmas about strings -/

theorem string_foldl_append (l : List String) (a : String) :
    l.foldl (fun r s => r ++ s) a = a ++ l.foldl (fun r s => r ++ s) "" := by
  induction l generalizing a with
  | nil => simp
  | cons x xs ih =>
    simp only [List.foldl_cons]
    rw [ih (a ++ x), ih ("" ++ x), String.empty_append, String.append_assoc]

theorem string_join_cons (a : String) (l : List String) :
    String.join (a :: l) = a ++ String.join l := by
  simp only [String.join, List.foldl_cons, String.empty_append]
  exact string_foldl_append l a

theorem string_join_nil : String.join ([] : List String) = "" := rfl

/-! ### Claim C4 -/

/-- Claim C4: in every configuration produced by the `XMLOutputFormat`
constructor, `add_visible_flag` and `use_change_ops` are never both true;
whenever the change format is selected, `add_visible_flag` is false regardless
of `force_visible_flag` or multiple-object-versions. -/
theorem c4_visible_flag_change_ops_exclusive (file : File) :
    ((XMLOutputFormat.init_options file).add_visible_flag &&
      (XMLOutputFormat.init_options file).use_change_ops) = false
    ∧ ((XMLOutputFormat.init_options file).use_change_ops = true →
        (XMLOutputFormat.init_options file).add_visible_flag = false) := by
  cases h : file.is_true "xml_change_format" with
  | false => exact ⟨by simp [XMLOutputFormat.init_options, h], by simp [XMLOutputFormat.init_options, h]⟩
  | true => exact ⟨by simp [XMLOutputFormat.init_options, h], by simp [XMLOutputFormat.init_options, h]⟩

/-- Witness for C4 at a configuration source that requests both the change
format and the visible flag. -/
theorem c4_visible_flag_change_ops_exclusive_witness :
    (XMLOutputFormat.init_options ⟨fun _ => true, fun _ => true, true⟩).use_change_ops = true
    ∧ (XMLOutputFormat.init_options ⟨fun _ => true, fun _ => true, true⟩).add_visible_flag = false :=
  ⟨rfl, (c4_visible_flag_change_ops_exclusive ⟨fun _ => true, fun _ => true, true⟩).2 rfl⟩

/-! ### Claim C2 -/

/-- Claim C2 counterexample: a visible object with absent version (version 0)
gets inferred operation `modify` from the code, while the claim asks for
`create` when the version is absent. -/
theorem c2_absent_version_counterexample :
    inferOp no_version_object = operation.op_modify
    ∧ claimed_inferred_op no_version_object = operation.op_create
    ∧ operation.op_modify ≠ operation.op_create := by
  decide

/-- Claim C2 amended: when `use_change_ops` is set, the inferred change
operation of a node, way or relation is `delete` if the entity is not visible,
otherwise `create` exactly when its version equals 1, and `modify` otherwise —
in particular an absent version (version 0) yields `modify`, not `create`. -/
theorem c2_inferred_op_amended (o : OSMObjectData) :
    inferOp o =
      (if o.visible = false then operation.op_delete
       else if o.version = 1 then operation.op_create
       else operation.op_modify) := by
  cases h : o.visible <;> simp [inferOp, h]

/-! ### Claim C9 -/

/-- Claim C9: `check_for_exception` surfaces the stored exception exactly when
the future is valid and already ready at the time of the call (and an
exception is stored); in every other case (not valid, or not yet ready) it
returns normally. -/
theorem c9_check_for_exception_nonblocking (future : StdFuture) :
    (∀ e, check_for_exception future = Except.error e ↔
      future.valid = true ∧ future.ready = true ∧ future.stored_exception = some e)
    ∧ (future.valid = false ∨ future.ready = false →
        check_for_exception future = Except.ok ()) := by
  constructor
  · intro e
    cases hv : future.valid <;> cases hr : future.ready <;>
      simp [check_for_exception, StdFuture.get, hv, hr] <;>
      cases hs : future.stored_exception <;> simp [hs]
  · rintro (h | h) <;> simp [check_for_exception, h]

/-- Witness for C9: a future holding a stored exception that is not yet ready
is left alone, and a ready valid one surfaces its exception. -/
theorem c9_check_for_exception_nonblocking_witness :
    check_for_exception ⟨true, false, some "boom"⟩ = Except.ok ()
    ∧ check_for_exception ⟨true, true, some "boom"⟩ = Except.error "boom" :=
  ⟨(c9_check_for_exception_nonblocking ⟨true, false, some "boom"⟩).2 (Or.inr rfl),
   ((c9_check_for_exception_nonblocking ⟨true, true, some "boom"⟩).1 "boom").2 ⟨rfl, rfl, rfl⟩⟩

/-! ### Claim C10 -/

/-- Claim C10: changeset rendering is independent of the session
configuration — any two configurations produce the identical output string,
no create/modify/delete wrapper is opened or closed around a changeset, and
the change-operation grouping state is left unchanged. -/
theorem c10_changeset_options_independent (opts1 opts2 : xml_output_options)
    (s : BlockState) (c : Changeset) :
    apply_item opts1 s (Item.changeset c) = apply_item opts2 s (Item.changeset c)
    ∧ (apply_item opts1 s (Item.changeset c)).last_op = s.last_op
    ∧ (apply_item opts1 s (Item.changeset c)).out = s.out ++ changeset_element c :=
  ⟨rfl, rfl, rfl⟩

/-! ### Claim C8 -/

/-- Claim C8: a node with id 1, visible, no location and no tags, rendered with
`add_metadata` off and `use_change_ops` off, is exactly the string
`"  <node id=\"1\"/>\n"` — two-space prefix, self-closed, trailing newline. -/
theorem c8_minimal_node_exact (opts : xml_output_options) (o : OSMObjectData)
    (hm : opts.add_metadata = false) (hc : opts.use_change_ops = false)
    (hid : o.id = 1) (_hv : o.visible = true) (ht : o.tags = []) :
    node_element opts ⟨o, none⟩ = "  <node id=\"1\"/>\n" := by
  have hmeta : write_meta opts o = " id=\"1\"" := by
    rw [write_meta, hid, hm]
    simp only [Bool.false_eq_true, if_false]
    decide
  rw [node_element, hmeta]
  simp only [location_attrs, ht, if_pos rfl, prefix_spaces, hc, Bool.false_eq_true, if_false]
  decide

/-- Witness for C8 at the concrete node of the claim. -/
theorem c8_minimal_node_exact_witness :
    node_element ⟨false, false, false⟩ ⟨⟨1, 0, 0, 0, "", 0, true, []⟩, none⟩ =
      "  <node id=\"1\"/>\n" :=
  c8_minimal_node_exact ⟨false, false, false⟩ ⟨1, 0, 0, 0, "", 0, true, []⟩ rfl rfl rfl rfl rfl

/-! ### Attribute sections contain no angle brackets -/

theorem attr_safe_append (a b : String) (ha : attr_safe a) (hb : attr_safe b) :
    attr_safe (a ++ b) := by
  intro c hc
  rcases List.mem_append.1 (by simpa using hc) with h | h
  · exact ha c h
  · exact hb c h

theorem attr_safe_ite (p : Prop) [Decidable p] (a b : String) (ha : attr_safe a)
    (hb : attr_safe b) : attr_safe (if p then a else b) := by
  split <;> assumption

theorem digit_char_safe (d : Nat) (h : d < 10) :
    digit_char d ≠ '<' ∧ digit_char d ≠ '>' := by
  interval_cases d <;> decide

theorem hex_digit_char_safe (d : Nat) (h : d < 16) :
    hex_digit_char d ≠ '<' ∧ hex_digit_char d ≠ '>' := by
  interval_cases d <;> decide

theorem nat_digits_core_safe (fuel n : Nat) :
    ∀ c ∈ nat_digits_core fuel n, c ≠ '<' ∧ c ≠ '>' := by
  induction fuel generalizing n with
  | zero => intro c hc; simp [nat_digits_core] at hc
  | succ fuel ih =>
    intro c hc
    rw [nat_digits_core] at hc
    split at hc
    · next h =>
      simp only [List.mem_singleton] at hc
      subst hc
      exact digit_char_safe n h
    · next h =>
      rcases List.mem_append.1 hc with h1 | h1
      · exact ih (n / 10) c h1
      · simp only [List.mem_singleton] at h1
        subst h1
        exact digit_char_safe (n % 10) (Nat.mod_lt n (by omega))

theorem format_nat_safe (n : Nat) : attr_safe (format_nat n) := by
  intro c hc
  exact nat_digits_core_safe (n + 1) n c hc

theorem format_int_safe (i : Int) : attr_safe (format_int i) := by
  rw [format_int]
  split
  · exact attr_safe_append _ _ (by decide) (format_nat_safe _)
  · exact format_nat_safe _

theorem pad2_safe (n : Nat) : attr_safe (pad2 n) := by
  rw [pad2]
  split
  · exact attr_safe_append _ _ (by decide) (format_nat_safe _)
  · exact format_nat_safe _

theorem replicate_safe (k : Nat) (c : Char) (hc : c ≠ '<' ∧ c ≠ '>') :
    attr_safe (String.mk (List.replicate k c)) := by
  intro c2 hc2
  have hc3 : c2 ∈ List.replicate k c := hc2
  have : c2 = c := List.eq_of_mem_replicate hc3
  subst this
  exact hc

theorem pad7_safe (n : Nat) : attr_safe (pad7 n) := by
  rw [pad7]
  exact attr_safe_append _ _ (replicate_safe _ _ (by decide)) (format_nat_safe _)

theorem timestamp_to_iso_safe (t : Nat) : attr_safe (timestamp_to_iso t) := by
  rw [timestamp_to_iso]
  repeat' first
    | apply attr_safe_append
    | apply attr_safe_ite
  all_goals first
    | exact format_nat_safe _
    | exact replicate_safe _ _ (by decide)
    | decide

theorem coord7_safe (x : Int) : attr_safe (coord7 x) := by
  rw [coord7]
  repeat' first
    | apply attr_safe_append
    | apply attr_safe_ite
  all_goals first
    | exact format_nat_safe _
    | exact replicate_safe _ _ (by decide)
    | decide

theorem xml_escape_char_safe (c : Char) :
    ∀ c2 ∈ xml_escape_char c, c2 ≠ '<' ∧ c2 ≠ '>' := by
  intro c2 hc2
  rw [xml_escape_char] at hc2
  by_cases h1 : c = '&'
  · rw [if_pos h1] at hc2
    exact (by decide : attr_safe "&amp;") c2 hc2
  · rw [if_neg h1] at hc2
    by_cases h2 : c = '<'
    · rw [if_pos h2] at hc2
      exact (by decide : attr_safe "&lt;") c2 hc2
    · rw [if_neg h2] at hc2
      by_cases h3 : c = '>'
      · rw [if_pos h3] at hc2
        exact (by decide : attr_safe "&gt;") c2 hc2
      · rw [if_neg h3] at hc2
        by_cases h4 : c = '"'
        · rw [if_pos h4] at hc2
          exact (by decide : attr_safe "&quot;") c2 hc2
        · rw [if_neg h4] at hc2
          by_cases h5 : c.toNat < 32 ∧ c ≠ '\t' ∧ c ≠ '\n' ∧ c ≠ '\r'
          · rw [if_pos h5] at hc2
            obtain ⟨hlt, -⟩ := h5
            rcases List.mem_append.1 hc2 with ha | ha
            · rcases List.mem_append.1 ha with hb | hb
              · exact (by decide : attr_safe "&#x") c2 hb
              · simp only [List.mem_cons, List.not_mem_nil, or_false] at hb
                rcases hb with rfl | rfl
                · exact hex_digit_char_safe _ (by omega)
                · exact hex_digit_char_safe _ (Nat.mod_lt _ (by omega))
            · simp only [List.mem_singleton] at ha
              subst ha
              decide
          · rw [if_neg h5] at hc2
            simp only [List.mem_singleton] at hc2
            subst hc2
            exact ⟨h2, h3⟩

theorem xml_escape_safe (s : String) : attr_safe (xml_escape s) := by
  intro c hc
  have hc2 : c ∈ (s.data.map xml_escape_char).flatten := hc
  rcases List.mem_flatten.1 hc2 with ⟨l, hl, hcl⟩
  rcases List.mem_map.1 hl with ⟨ch, -, rfl⟩
  exact xml_escape_char_safe ch c hcl

theorem write_meta_safe (opts : xml_output_options) (o : OSMObjectData) :
    attr_safe (write_meta opts o) := by
  rw [write_meta]
  repeat' first
    | apply attr_safe_append
    | apply attr_safe_ite
  all_goals first
    | exact format_nat_safe _
    | exact xml_escape_safe _
    | exact replicate_safe _ _ (by decide)
    | decide

theorem location_attrs_safe (loc : Option Location) : attr_safe (location_attrs loc) := by
  cases loc with
  | none => decide
  | some l =>
    simp only [location_attrs]
    repeat' first
      | apply attr_safe_append
      | apply attr_safe_ite
    all_goals first
      | exact format_nat_safe _
      | exact replicate_safe _ _ (by decide)
      | decide

theorem bounds_attrs_safe (b : Option Box) : attr_safe (bounds_attrs b) := by
  cases b with
  | none => decide
  | some box =>
    simp only [bounds_attrs]
    repeat' first
      | apply attr_safe_append
      | apply attr_safe_ite
    all_goals first
      | exact format_nat_safe _
      | exact replicate_safe _ _ (by decide)
      | decide

theorem changeset_attrs_safe (c : Changeset) : attr_safe (changeset_attrs c) := by
  rw [changeset_attrs]
  repeat' first
    | apply attr_safe_append
    | apply attr_safe_ite
  all_goals first
    | exact format_nat_safe _
    | exact xml_escape_safe _
    | exact bounds_attrs_safe _
    | exact replicate_safe _ _ (by decide)
    | decide

/-! ### Claim C5 -/

/-- Claim C5: a changeset with zero tags and `num_comments = 0` renders as one
self-closed element — no `</changeset>` closing tag and no `<discussion>`
block can occur because the attribute section contains no angle bracket at
all; a changeset with `num_comments > 0` renders with an explicit
`</changeset>` closing tag and exactly one `<discussion>` block holding one
`<comment>` entry per discussion comment. -/
theorem c5_changeset_self_closing (c : Changeset) :
    (c.tags = [] → c.num_comments = 0 →
      ∃ A, changeset_element c = " <changeset" ++ A ++ "/>\n" ∧ attr_safe A)
    ∧ (0 < c.num_comments →
        changeset_element c =
          " <changeset" ++ changeset_attrs c ++ ">\n" ++ write_tags c.tags 0 ++
            "  <discussion>\n" ++ String.join (c.comments.map comment_string) ++
            "  </discussion>\n" ++ " </changeset>\n") := by
  constructor
  · intro ht hn
    exact ⟨changeset_attrs c, by rw [changeset_element, if_pos ⟨ht, hn⟩], changeset_attrs_safe c⟩
  · intro hn
    rw [changeset_element, if_neg (by rintro ⟨-, h0⟩; omega), if_pos hn, write_discussion]
    simp [String.append_assoc]

/-- Witness for C5: a concrete empty changeset and a concrete changeset with
one discussion comment. -/
theorem c5_changeset_self_closing_witness :
    (∃ A, changeset_element ⟨1, 0, 0, 0, "", none, 0, 0, [], []⟩ =
      " <changeset" ++ A ++ "/>\n" ∧ attr_safe A)
    ∧ changeset_element ⟨2, 0, 0, 0, "", none, 0, 1, [], [⟨0, "u", 0, "hi"⟩]⟩ =
        " <changeset" ++ changeset_attrs ⟨2, 0, 0, 0, "", none, 0, 1, [], [⟨0, "u", 0, "hi"⟩]⟩ ++
          ">\n" ++ write_tags [] 0 ++ "  <discussion>\n" ++
          String.join ([(⟨0, "u", 0, "hi"⟩ : ChangesetComment)].map comment_string) ++
          "  </discussion>\n" ++ " </changeset>\n" :=
  ⟨(c5_changeset_self_closing ⟨1, 0, 0, 0, "", none, 0, 0, [], []⟩).1 rfl rfl,
   (c5_changeset_self_closing ⟨2, 0, 0, 0, "", none, 0, 1, [], [⟨0, "u", 0, "hi"⟩]⟩).2 (by decide)⟩

/-! ### Claim C6 -/

/-- Claim C6: a node with zero tags, a way with zero tags and zero node
references, and a relation with zero tags and zero members each render as one
self-closed element with no separate closing tag (the attribute section
contains no angle bracket); an entity with at least one tag renders as an open
tag with child elements followed by the matching closing tag. -/
theorem c6_object_self_closing (opts : xml_output_options) (n : Node) (w : Way) (r : Relation) :
    (n.obj.tags = [] →
      ∃ A, node_element opts n = spaces (prefix_spaces opts) ++ "<node" ++ A ++ "/>\n"
        ∧ attr_safe A)
    ∧ (n.obj.tags ≠ [] →
        node_element opts n =
          spaces (prefix_spaces opts) ++ "<node" ++
            (write_meta opts n.obj ++ location_attrs n.location) ++ ">\n" ++
            write_tags n.obj.tags (prefix_spaces opts) ++
            spaces (prefix_spaces opts) ++ "</node>\n")
    ∧ (w.obj.tags = [] → w.nodes = [] →
        ∃ A, way_element opts w = spaces (prefix_spaces opts) ++ "<way" ++ A ++ "/>\n"
          ∧ attr_safe A)
    ∧ (w.obj.tags ≠ [] →
        way_element opts w =
          spaces (prefix_spaces opts) ++ "<way" ++ write_meta opts w.obj ++ ">\n" ++
            String.join (w.nodes.map (nd_ref_string opts)) ++
            write_tags w.obj.tags (prefix_spaces opts) ++
            spaces (prefix_spaces opts) ++ "</way>\n")
    ∧ (r.obj.tags = [] → r.members = [] →
        ∃ A, relation_element opts r = spaces (prefix_spaces opts) ++ "<relation" ++ A ++ "/>\n"
          ∧ attr_safe A)
    ∧ (r.obj.tags ≠ [] →
        relation_element opts r =
          spaces (prefix_spaces opts) ++ "<relation" ++ write_meta opts r.obj ++ ">\n" ++
            String.join (r.members.map (member_string opts)) ++
            write_tags r.obj.tags (prefix_spaces opts) ++
            spaces (prefix_spaces opts) ++ "</relation>\n") := by
  refine ⟨?_, ?_, ?_, ?_, ?_, ?_⟩
  · intro ht
    refine ⟨write_meta opts n.obj ++ location_attrs n.location, ?_,
      attr_safe_append _ _ (write_meta_safe opts n.obj) (location_attrs_safe n.location)⟩
    rw [node_element, if_pos ht]
    simp [String.append_assoc]
  · intro ht
    rw [node_element, if_neg ht]
    simp [String.append_assoc]
  · intro ht hn
    refine ⟨write_meta opts w.obj, ?_, write_meta_safe opts w.obj⟩
    rw [way_element, if_pos ⟨ht, hn⟩]
  · intro ht
    rw [way_element, if_neg (by rintro ⟨h1, -⟩; exact ht h1)]
    simp [String.append_assoc]
  · intro ht hm
    refine ⟨write_meta opts r.obj, ?_, write_meta_safe opts r.obj⟩
    rw [relation_element, if_pos ⟨ht, hm⟩]
  · intro ht
    rw [relation_element, if_neg (by rintro ⟨h1, -⟩; exact ht h1)]
    simp [String.append_assoc]

/-- Witness for C6: concrete tagless and tagged entities of all three types. -/
theorem c6_object_self_closing_witness :
    (∃ A, node_element ⟨true, false, false⟩ ⟨⟨1, 0, 0, 0, "", 0, true, []⟩, none⟩ =
      spaces (prefix_spaces ⟨true, false, false⟩) ++ "<node" ++ A ++ "/>\n" ∧ attr_safe A)
    ∧ node_element ⟨true, false, false⟩ ⟨⟨1, 0, 0, 0, "", 0, true, [("k", "v")]⟩, none⟩ =
        spaces (prefix_spaces ⟨true, false, false⟩) ++ "<node" ++
          (write_meta ⟨true, false, false⟩ ⟨1, 0, 0, 0, "", 0, true, [("k", "v")]⟩ ++
            location_attrs none) ++ ">\n" ++
          write_tags [("k", "v")] (prefix_spaces ⟨true, false, false⟩) ++
          spaces (prefix_spaces ⟨true, false, false⟩) ++ "</node>\n"
    ∧ (∃ A, way_element ⟨true, false, false⟩ ⟨⟨2, 0, 0, 0, "", 0, true, []⟩, []⟩ =
        spaces (prefix_spaces ⟨true, false, false⟩) ++ "<way" ++ A ++ "/>\n" ∧ attr_safe A)
    ∧ way_element ⟨true, false, false⟩ ⟨⟨2, 0, 0, 0, "", 0, true, [("k", "v")]⟩, [5]⟩ =
        spaces (prefix_spaces ⟨true, false, false⟩) ++ "<way" ++
          write_meta ⟨true, false, false⟩ ⟨2, 0, 0, 0, "", 0, true, [("k", "v")]⟩ ++ ">\n" ++
          String.join ([(5 : Int)].map (nd_ref_string ⟨true, false, false⟩)) ++
          write_tags [("k", "v")] (prefix_spaces ⟨true, false, false⟩) ++
          spaces (prefix_spaces ⟨true, false, false⟩) ++ "</way>\n"
    ∧ (∃ A, relation_element ⟨true, false, false⟩ ⟨⟨3, 0, 0, 0, "", 0, true, []⟩, []⟩ =
        spaces (prefix_spaces ⟨true, false, false⟩) ++ "<relation" ++ A ++ "/>\n" ∧ attr_safe A)
    ∧ relation_element ⟨true, false, false⟩ ⟨⟨3, 0, 0, 0, "", 0, true, [("k", "v")]⟩, []⟩ =
        spaces (prefix_spaces ⟨true, false, false⟩) ++ "<relation" ++
          write_meta ⟨true, false, false⟩ ⟨3, 0, 0, 0, "", 0, true, [("k", "v")]⟩ ++ ">\n" ++
          String.join (([] : List RelationMember).map (member_string ⟨true, false, false⟩)) ++
          write_tags [("k", "v")] (prefix_spaces ⟨true, false, false⟩) ++
          spaces (prefix_spaces ⟨true, false, false⟩) ++ "</relation>\n" :=
  ⟨(c6_object_self_closing ⟨true, false, false⟩ ⟨⟨1, 0, 0, 0, "", 0, true, []⟩, none⟩
      ⟨⟨2, 0, 0, 0, "", 0, true, []⟩, []⟩ ⟨⟨3, 0, 0, 0, "", 0, true, []⟩, []⟩).1 rfl,
   (c6_object_self_closing ⟨true, false, false⟩ ⟨⟨1, 0, 0, 0, "", 0, true, [("k", "v")]⟩, none⟩
      ⟨⟨2, 0, 0, 0, "", 0, true, []⟩, []⟩ ⟨⟨3, 0, 0, 0, "", 0, true, []⟩, []⟩).2.1 (by decide),
   (c6_object_self_closing ⟨true, false, false⟩ ⟨⟨1, 0, 0, 0, "", 0, true, []⟩, none⟩
      ⟨⟨2, 0, 0, 0, "", 0, true, []⟩, []⟩ ⟨⟨3, 0, 0, 0, "", 0, true, []⟩, []⟩).2.2.1 rfl rfl,
   (c6_object_self_closing ⟨true, false, false⟩ ⟨⟨1, 0, 0, 0, "", 0, true, []⟩, none⟩
      ⟨⟨2, 0, 0, 0, "", 0, true, [("k", "v")]⟩, [5]⟩ ⟨⟨3, 0, 0, 0, "", 0, true, []⟩, []⟩).2.2.2.1
      (by decide),
   (c6_object_self_closing ⟨true, false, false⟩ ⟨⟨1, 0, 0, 0, "", 0, true, []⟩, none⟩
      ⟨⟨2, 0, 0, 0, "", 0, true, []⟩, []⟩ ⟨⟨3, 0, 0, 0, "", 0, true, []⟩, []⟩).2.2.2.2.1 rfl rfl,
   (c6_object_self_closing ⟨true, false, false⟩ ⟨⟨1, 0, 0, 0, "", 0, true, []⟩, none⟩
      ⟨⟨2, 0, 0, 0, "", 0, true, []⟩, []⟩
      ⟨⟨3, 0, 0, 0, "", 0, true, [("k", "v")]⟩, []⟩).2.2.2.2.2 (by decide)⟩

/-! ### Claim C7 -/

/-- Claim C7 counterexample: with the change format selected and the header
metadata `xml_josm_upload` exactly "true", the header string contains no
upload attribute at all, refuting the claim's unconditional "if and only if". -/
theorem c7_upload_counterexample :
    (⟨true, false, true⟩ : xml_output_options).use_change_ops = true
    ∧ (⟨"gen", "true", []⟩ : Header).xml_josm_upload = "true"
    ∧ contains_upload_attr (write_header ⟨true, false, true⟩ ⟨"gen", "true", []⟩) = false := by
  refine ⟨rfl, rfl, ?_⟩
  decide

/-- Claim C7 amended: the header's top-level element is
`<osmChange version="0.6" ...>` when `use_change_ops` is set and
`<osm version="0.6" ...>` otherwise, and the footer emitted by `write_end` is
the matching closing tag; the upload attribute appears exactly when the format
is not the change format and `xml_josm_upload` is exactly "true" or exactly
"false" — in the change format it is never emitted. -/
theorem c7_header_footer_amended (opts : xml_output_options) (header : Header) :
    (opts.use_change_ops = true →
      write_header opts header =
        "<?xml version='1.0' encoding='UTF-8'?>\n" ++ "<osmChange version=\"0.6\" generator=\"" ++
          xml_escape header.generator ++ "\">\n" ++ String.join (header.boxes.map box_string)
      ∧ write_end opts = "</osmChange>\n")
    ∧ (opts.use_change_ops = false →
        (header.xml_josm_upload = "true" ∨ header.xml_josm_upload = "false") →
        write_header opts header =
          "<?xml version='1.0' encoding='UTF-8'?>\n" ++
            ("<osm version=\"0.6\"" ++ (" upload=\"" ++ header.xml_josm_upload ++ "\"") ++
              " generator=\"") ++
            xml_escape header.generator ++ "\">\n" ++ String.join (header.boxes.map box_string))
    ∧ (opts.use_change_ops = false →
        header.xml_josm_upload ≠ "true" → header.xml_josm_upload ≠ "false" →
        write_header opts header =
          "<?xml version='1.0' encoding='UTF-8'?>\n" ++
            ("<osm version=\"0.6\"" ++ " generator=\"") ++
            xml_escape header.generator ++ "\">\n" ++ String.join (header.boxes.map box_string))
    ∧ (opts.use_change_ops = false → write_end opts = "</osm>\n") := by
  refine ⟨fun hops => ⟨?_, ?_⟩, fun hops hj => ?_, fun hops hj1 hj2 => ?_, fun hops => ?_⟩
  · rw [write_header, if_pos hops]
  · rw [write_end, if_pos hops]
  · rw [write_header, if_neg (by simp [hops]), if_pos hj]
  · rw [write_header, if_neg (by simp [hops]),
      if_neg (by rintro (h | h); exacts [hj1 h, hj2 h])]
    rw [String.append_empty]
  · rw [write_end]
    simp [hops]

/-- Witness for C7 at concrete configurations and headers covering all
branches. -/
theorem c7_header_footer_amended_witness :
    write_header ⟨true, true, true⟩ ⟨"g", "true", []⟩ =
      "<?xml version='1.0' encoding='UTF-8'?>\n" ++ "<osmChange version=\"0.6\" generator=\"" ++
        xml_escape "g" ++ "\">\n" ++ String.join (([] : List Box).map box_string)
    ∧ write_end ⟨true, true, true⟩ = "</osmChange>\n"
    ∧ write_header ⟨true, true, false⟩ ⟨"g", "true", []⟩ =
        "<?xml version='1.0' encoding='UTF-8'?>\n" ++
          ("<osm version=\"0.6\"" ++ (" upload=\"" ++ "true" ++ "\"") ++ " generator=\"") ++
          xml_escape "g" ++ "\">\n" ++ String.join (([] : List Box).map box_string)
    ∧ write_header ⟨true, true, false⟩ ⟨"g", "x", []⟩ =
        "<?xml version='1.0' encoding='UTF-8'?>\n" ++
          ("<osm version=\"0.6\"" ++ " generator=\"") ++
          xml_escape "g" ++ "\">\n" ++ String.join (([] : List Box).map box_string)
    ∧ write_end ⟨true, true, false⟩ = "</osm>\n" :=
  ⟨((c7_header_footer_amended ⟨true, true, true⟩ ⟨"g", "true", []⟩).1 rfl).1,
   ((c7_header_footer_amended ⟨true, true, true⟩ ⟨"g", "true", []⟩).1 rfl).2,
   (c7_header_footer_amended ⟨true, true, false⟩ ⟨"g", "true", []⟩).2.1 rfl (Or.inl rfl),
   (c7_header_footer_amended ⟨true, true, false⟩ ⟨"g", "x", []⟩).2.2.1 rfl (by decide) (by decide),
   (c7_header_footer_amended ⟨true, true, false⟩ ⟨"g", "x", []⟩).2.2.2 rfl⟩

/-! ### Claim C3: change-operation grouping -/

theorem open_close_op_tag_out (s : BlockState) (op : operation) :
    (open_close_op_tag s op).out =
      s.out ++ (if op = s.last_op then "" else close_op_string s.last_op ++ open_op_string op) := by
  rw [open_close_op_tag]
  split
  · exact (String.append_empty s.out).symm
  · exact String.append_assoc _ _ _

theorem open_close_op_tag_last (s : BlockState) (op : operation) :
    (open_close_op_tag s op).last_op = op := by
  rw [open_close_op_tag]
  split
  · next h => exact h.symm
  · rfl

theorem inferOp_ne_none (o : OSMObjectData) : inferOp o ≠ operation.op_none := by
  rw [inferOp]
  split
  · split <;> decide
  · decide

theorem entity_op_ne_none (it : Item) (h : it.is_object = true) :
    entity_op it ≠ operation.op_none := by
  cases it with
  | node n => exact inferOp_ne_none n.obj
  | way w => exact inferOp_ne_none w.obj
  | relation r => exact inferOp_ne_none r.obj
  | changeset c => simp [Item.is_object] at h

theorem apply_item_object (opts : xml_output_options) (s : BlockState) (it : Item)
    (hobj : it.is_object = true) (hops : opts.use_change_ops = true) :
    apply_item opts s it =
      { out := (open_close_op_tag s (entity_op it)).out ++ item_element opts it,
        last_op := entity_op it } := by
  cases it with
  | node n =>
    simp [apply_item, XMLOutputBlock.node, hops, entity_op, item_element, open_close_op_tag_last]
  | way w =>
    simp [apply_item, XMLOutputBlock.way, hops, entity_op, item_element, open_close_op_tag_last]
  | relation r =>
    simp [apply_item, XMLOutputBlock.relation, hops, entity_op, item_element,
      open_close_op_tag_last]
  | changeset c => simp [Item.is_object] at hobj

theorem foldl_out_from (opts : xml_output_options) (hops : opts.use_change_ops = true) :
    ∀ (items : List Item) (s : BlockState), (∀ it ∈ items, it.is_object = true) →
      (open_close_op_tag (items.foldl (apply_item opts) s) operation.op_none).out =
        s.out ++ out_from opts s.last_op items := by
  intro items
  induction items with
  | nil =>
    intro s _
    rw [List.foldl_nil, out_from, open_close_op_tag_out]
    cases h : s.last_op <;>
      simp [close_op_string, open_op_string, h, String.append_empty]
  | cons it rest ih =>
    intro s hall
    rw [List.foldl_cons, apply_item_object opts s it (hall it (List.mem_cons_self it rest)) hops,
      ih _ (fun x hx => hall x (List.mem_cons_of_mem _ hx))]
    rw [out_from]
    simp only [open_close_op_tag_out]
    simp [String.append_assoc]

theorem runs_cons_nil (it : Item) (rest : List Item) (h : runs rest = []) :
    runs (it :: rest) = [(entity_op it, [it])] := by
  simp [runs, h]

theorem runs_cons_cons (it : Item) (rest : List Item) (op : operation) (g : List Item)
    (rs : List (operation × List Item)) (h : runs rest = (op, g) :: rs) :
    runs (it :: rest) =
      if entity_op it = op then (op, it :: g) :: rs
      else (entity_op it, [it]) :: (op, g) :: rs := by
  simp [runs, h]

theorem runs_eq_nil (items : List Item) (h : runs items = []) : items = [] := by
  cases items with
  | nil => rfl
  | cons it rest =>
    cases hr : runs rest with
    | nil => rw [runs_cons_nil it rest hr] at h; simp at h
    | cons p rs =>
      obtain ⟨op, g⟩ := p
      rw [runs_cons_cons it rest op g rs hr] at h
      split at h <;> simp at h

theorem out_from_runs (opts : xml_output_options) :
    ∀ (items : List Item) (last : operation),
      out_from opts last items =
        (match runs items with
         | [] => close_op_string last
         | (op, g) :: rs =>
           (if op = last then "" else close_op_string last ++ open_op_string op) ++
             (String.join (g.map (item_element opts)) ++
               (close_op_string op ++ runs_out opts rs))) := by
  intro items
  induction items with
  | nil => intro last; simp [out_from, runs]
  | cons it rest ih =>
    intro last
    rw [out_from]
    cases hr : runs rest with
    | nil =>
      have hrest : rest = [] := runs_eq_nil rest hr
      subst hrest
      rw [out_from]
      simp [runs, runs_out, string_join_cons, string_join_nil, String.append_assoc,
        String.append_empty]
    | cons p rs =>
      obtain ⟨op, g⟩ := p
      have iH := ih (entity_op it)
      simp only [hr] at iH
      rw [iH]
      by_cases heq : entity_op it = op
      · subst heq
        rw [runs_cons_cons it rest _ _ _ hr, if_pos rfl]
        simp [string_join_cons, string_join_nil, String.append_assoc, String.append_empty,
          String.empty_append]
      · rw [runs_cons_cons it rest op g rs hr, if_neg heq]
        simp [heq, Ne.symm heq, string_join_cons, string_join_nil, String.append_assoc,
          String.append_empty, String.empty_append, runs_out, run_string]

theorem runs_flatten (items : List Item) : ((runs items).map Prod.snd).flatten = items := by
  induction items with
  | nil => rfl
  | cons it rest ih =>
    cases hr : runs rest with
    | nil =>
      have := runs_eq_nil rest hr
      subst this
      simp [runs]
    | cons q rs =>
      obtain ⟨op, g⟩ := q
      rw [runs_cons_cons it rest op g rs hr]
      rw [hr] at ih
      simp only [List.map_cons, List.flatten_cons] at ih
      by_cases heq : entity_op it = op
      · rw [if_pos heq]
        simp only [List.map_cons, List.flatten_cons, List.cons_append]
        rw [ih]
      · rw [if_neg heq]
        simp only [List.map_cons, List.flatten_cons, List.singleton_append]
        rw [ih]

theorem runs_ops (items : List Item) :
    ∀ p ∈ runs items, p.2 ≠ [] ∧ ∀ it ∈ p.2, entity_op it = p.1 := by
  induction items with
  | nil => intro p hp; simp [runs] at hp
  | cons it rest ih =>
    intro p hp
    cases hr : runs rest with
    | nil =>
      rw [runs_cons_nil it rest hr] at hp
      simp only [List.mem_singleton] at hp
      subst hp
      refine ⟨by simp, ?_⟩
      intro x hx
      simp only [List.mem_singleton] at hx
      subst hx
      rfl
    | cons q rs =>
      obtain ⟨op, g⟩ := q
      rw [runs_cons_cons it rest op g rs hr] at hp
      by_cases heq : entity_op it = op
      · rw [if_pos heq] at hp
        rcases List.mem_cons.1 hp with rfl | hmem
        · have hg := ih (op, g) (by rw [hr]; exact List.mem_cons_self _ _)
          refine ⟨by simp, ?_⟩
          intro x hx
          rcases List.mem_cons.1 hx with rfl | hx2
          · exact heq
          · exact hg.2 x hx2
        · exact ih _ (by rw [hr]; exact List.mem_cons_of_mem _ hmem)
      · rw [if_neg heq] at hp
        rcases List.mem_cons.1 hp with rfl | hmem
        · refine ⟨by simp, ?_⟩
          intro x hx
          simp only [List.mem_singleton] at hx
          subst hx
          rfl
        · exact ih _ (by rw [hr]; exact hmem)

theorem runs_chain (items : List Item) :
    List.Chain' (fun p q : operation × List Item => p.1 ≠ q.1) (runs items) := by
  induction items with
  | nil => simp [runs]
  | cons it rest ih =>
    cases hr : runs rest with
    | nil => rw [runs_cons_nil it rest hr]; simp
    | cons q rs =>
      obtain ⟨op, g⟩ := q
      rw [runs_cons_cons it rest op g rs hr]
      rw [hr] at ih
      by_cases heq : entity_op it = op
      · rw [if_pos heq]
        rcases List.chain'_cons'.1 ih with ⟨hhead, htail⟩
        exact List.chain'_cons'.2 ⟨fun b hb => hhead b hb, htail⟩
      · rw [if_neg heq]
        exact List.chain'_cons.2 ⟨heq, ih⟩

/-- Claim C3: with `use_change_ops` set, a buffer of objects whose inferred
operations form k maximal contiguous runs produces exactly k wrapper
open/close pairs, each pair immediately enclosing the markup of its run (the
block output is precisely the concatenation of one `run_string` per run), and
a wrapper still open at the end of the buffer is closed before the block's
string is returned (the last run's `run_string` ends with its closing tag).
The remaining conjuncts pin down that `runs` really is the decomposition into
maximal contiguous runs of equal inferred operations. -/
theorem c3_change_op_grouping (opts : xml_output_options) (items : List Item)
    (hops : opts.use_change_ops = true)
    (hobj : ∀ it ∈ items, it.is_object = true) :
    block_string opts items = runs_out opts (runs items)
    ∧ ((runs items).map Prod.snd).flatten = items
    ∧ (∀ p ∈ runs items, p.2 ≠ [] ∧ ∀ it ∈ p.2, entity_op it = p.1)
    ∧ List.Chain' (fun p q : operation × List Item => p.1 ≠ q.1) (runs items) := by
  refine ⟨?_, runs_flatten items, runs_ops items, runs_chain items⟩
  have h2 : block_string opts items =
      (open_close_op_tag (items.foldl (apply_item opts) ⟨"", operation.op_none⟩)
        operation.op_none).out := by
    simp [block_string, hops]
  rw [h2, foldl_out_from opts hops items ⟨"", operation.op_none⟩ hobj]
  rw [out_from_runs opts items operation.op_none]
  simp only [String.empty_append]
  cases hr : runs items with
  | nil => rfl
  | cons q rs =>
    obtain ⟨op, g⟩ := q
    have hne : op ≠ operation.op_none := by
      obtain ⟨hgne, hall⟩ := runs_ops items (op, g) (by rw [hr]; exact List.mem_cons_self _ _)
      obtain ⟨it2, hit2⟩ := List.exists_mem_of_ne_nil g hgne
      have hin : it2 ∈ items := by
        rw [← runs_flatten items]
        exact List.mem_flatten.2 ⟨g, List.mem_map.2 ⟨(op, g), by rw [hr]; simp, rfl⟩, hit2⟩
      intro hcontra
      exact entity_op_ne_none it2 (hobj it2 hin) ((hall it2 hit2).trans hcontra)
    simp [hne, runs_out, run_string, string_join_cons, close_op_string, String.append_assoc,
      String.empty_append]

/-- Witness for C3: two creates followed by one modify form two runs. -/
theorem c3_change_op_grouping_witness :
    block_string ⟨true, false, true⟩
        [Item.node ⟨⟨1, 1, 0, 0, "", 0, true, []⟩, none⟩,
         Item.node ⟨⟨2, 1, 0, 0, "", 0, true, []⟩, none⟩,
         Item.way ⟨⟨3, 2, 0, 0, "", 0, true, []⟩, []⟩] =
      runs_out ⟨true, false, true⟩
        (runs [Item.node ⟨⟨1, 1, 0, 0, "", 0, true, []⟩, none⟩,
               Item.node ⟨⟨2, 1, 0, 0, "", 0, true, []⟩, none⟩,
               Item.way ⟨⟨3, 2, 0, 0, "", 0, true, []⟩, []⟩])
    ∧ ((runs [Item.node ⟨⟨1, 1, 0, 0, "", 0, true, []⟩, none⟩,
              Item.node ⟨⟨2, 1, 0, 0, "", 0, true, []⟩, none⟩,
              Item.way ⟨⟨3, 2, 0, 0, "", 0, true, []⟩, []⟩]).map Prod.snd).flatten =
        [Item.node ⟨⟨1, 1, 0, 0, "", 0, true, []⟩, none⟩,
         Item.node ⟨⟨2, 1, 0, 0, "", 0, true, []⟩, none⟩,
         Item.way ⟨⟨3, 2, 0, 0, "", 0, true, []⟩, []⟩]
    ∧ (∀ p ∈ runs [Item.node ⟨⟨1, 1, 0, 0, "", 0, true, []⟩, none⟩,
                   Item.node ⟨⟨2, 1, 0, 0, "", 0, true, []⟩, none⟩,
                   Item.way ⟨⟨3, 2, 0, 0, "", 0, true, []⟩, []⟩],
        p.2 ≠ [] ∧ ∀ it ∈ p.2, entity_op it = p.1)
    ∧ List.Chain' (fun p q : operation × List Item => p.1 ≠ q.1)
        (runs [Item.node ⟨⟨1, 1, 0, 0, "", 0, true, []⟩, none⟩,
               Item.node ⟨⟨2, 1, 0, 0, "", 0, true, []⟩, none⟩,
               Item.way ⟨⟨3, 2, 0, 0, "", 0, true, []⟩, []⟩]) :=
  c3_change_op_grouping ⟨true, false, true⟩
    [Item.node ⟨⟨1, 1, 0, 0, "", 0, true, []⟩, none⟩,
     Item.node ⟨⟨2, 1, 0, 0, "", 0, true, []⟩, none⟩,
     Item.way ⟨⟨3, 2, 0, 0, "", 0, true, []⟩, []⟩] rfl (by decide)

/-! ### Claim C1: submission order is delivery order -/

theorem queue_step_inv (results : List String) (s s2 : QueueState) (e : QueueEvent)
    (h : queue_step results s e = some s2)
    (k : Nat) (hk : k ≤ results.length)
    (hq : s.queue = (List.range results.length).drop k)
    (hd : s.delivered = results.take k)
    (hl : s.ready.length = results.length) :
    ∃ k2, k2 ≤ results.length ∧ s2.queue = (List.range results.length).drop k2 ∧
      s2.delivered = results.take k2 ∧ s2.ready.length = results.length := by
  cases e with
  | work i =>
    rw [queue_step] at h
    split at h
    · split at h
      · simp at h
      · refine ⟨k, hk, ?_, ?_, ?_⟩ <;> cases h <;> simp [hq, hd, hl, List.length_set]
    · simp at h
  | pop =>
    by_cases hkn : k < results.length
    · have hq2 : s.queue = k :: (List.range results.length).drop (k + 1) := by
        rw [hq, List.drop_eq_getElem_cons (by simpa using hkn)]
        simp
      simp only [queue_step, hq2] at h
      split at h
      · split at h
        · cases h
          refine ⟨k + 1, by omega, ?_, ?_, ?_⟩
          · simp
          · show s.delivered ++ [results.getD k ""] = results.take (k + 1)
            rw [hd, List.getD_eq_getElem results "" hkn, List.take_succ,
              List.getElem?_eq_getElem hkn]
            rfl
          · exact hl
        · simp at h
      · simp at h
    · have hq0 : s.queue = [] := by
        rw [hq]
        apply List.drop_eq_nil_iff.2
        simp only [List.length_range]
        omega
      simp only [queue_step, hq0] at h
      exact Option.noConfusion h

theorem queue_run_inv (results : List String) :
    ∀ (events : List QueueEvent) (s final : QueueState),
      queue_run results s events = some final →
      (∃ k, k ≤ results.length ∧ s.queue = (List.range results.length).drop k ∧
        s.delivered = results.take k ∧ s.ready.length = results.length) →
      ∃ k2, k2 ≤ results.length ∧ final.queue = (List.range results.length).drop k2 ∧
        final.delivered = results.take k2 ∧ final.ready.length = results.length := by
  intro events
  induction events with
  | nil =>
    intro s final h hinv
    rw [queue_run] at h
    cases h
    exact hinv
  | cons e es ih =>
    intro s final h hinv
    rw [queue_run] at h
    cases hstep : queue_step results s e with
    | none =>
      simp only [hstep] at h
      exact Option.noConfusion h
    | some s2 =>
      simp only [hstep] at h
      obtain ⟨k, hk, hq, hd, hl⟩ := hinv
      exact ih s2 final h (queue_step_inv results s s2 e hstep k hk hq hd hl)

/-- Claim C1: for every session, whatever interleaving of worker completions
and drain pops occurs, once the queue is drained the sequence of strings
delivered to the sink is exactly one header string, then one string per input
buffer in the order the buffers were passed to `write_buffer`, then one footer
string — independent of the order in which workers finish encoding the
individual blocks. -/
theorem c1_output_order_independent (opts : xml_output_options) (header : Header)
    (buffers : List (List Item)) (events : List QueueEvent) (final : QueueState)
    (hrun : queue_run (buffers.map (block_string opts))
        (init_queue_state (buffers.map (block_string opts)).length) events = some final)
    (hdrained : final.queue = []) :
    session_output opts header final.delivered =
      write_header opts header :: (buffers.map (block_string opts) ++ [write_end opts]) := by
  obtain ⟨k, hk, hq, hd, -⟩ := queue_run_inv (buffers.map (block_string opts)) events
    (init_queue_state (buffers.map (block_string opts)).length) final hrun
    ⟨0, by omega, by simp [init_queue_state], by simp [init_queue_state],
      by simp [init_queue_state]⟩
  rw [hq] at hdrained
  have hlen : (buffers.map (block_string opts)).length ≤ k := by
    have h2 := List.drop_eq_nil_iff.1 hdrained
    simpa using h2
  rw [session_output, hd, List.take_of_length_le hlen]

/-- Witness for C1: two buffers whose workers finish in reverse order still
deliver in submission order. -/
theorem c1_output_order_independent_witness :
    session_output ⟨true, true, false⟩ ⟨"g", "", []⟩ ["", ""] =
      write_header ⟨true, true, false⟩ ⟨"g", "", []⟩ ::
        ([[], []].map (block_string ⟨true, true, false⟩) ++ [write_end ⟨true, true, false⟩]) :=
  c1_output_order_independent ⟨true, true, false⟩ ⟨"g", "", []⟩ [[], []]
    [QueueEvent.work 1, QueueEvent.work 0, QueueEvent.pop, QueueEvent.pop]
    ⟨[true, true], [], ["", ""]⟩ (by decide) rfl

end osmium
